import Mathlib

/-!
Verification development for the party-jukebox server core
(server-held Spotify token lifecycle, gateway retry policy, radio-playlist
management, queue reconciliation and removal, HTTP boundary behavior).

The definitions below are a shallow embedding of the TypeScript source:
JavaScript strings become `String`, `undefined`/`null` become `Option`,
millisecond timestamps become `Int`, thrown exceptions become
`Except String`, and outbound HTTP effects are supplied by explicit
environment records (scripted responses) while handlers are pure
functions that also return the list of Spotify requests they issued.
-/

/-- JavaScript truthiness of a `string | null | undefined` value:
`undefined`, `null` and the empty string are falsy. -/
def truthyStr : Option String → Bool
  | none => false
  | some s => !(s == "")

/-- JavaScript `a || b` for strings where `a : string | undefined`
(the empty string is falsy and falls through to the default). -/
def jsOrStr : Option String → String → String
  | none, d => d
  | some s, d => if s == "" then d else s

/-- JavaScript `a || b` for numbers where `a : number | undefined`
(`0` is falsy and falls through to the default). -/
def jsOrInt : Option Int → Int → Int
  | none, d => d
  | some n, d => if n == 0 then d else n

/-- Property `Response.ok` of the fetch API: status in the range 200..299. -/
def respOk (status : Nat) : Bool :=
  decide (200 ≤ status) && decide (status ≤ 299)

/-! ## TokenStore (`SpotifyTokenStorage` in `storage.ts`) -/

/-- The stored token record (`SpotifyTokens` interface): access token,
refresh token and the absolute expiry instant in milliseconds. -/
structure SpotifyTokens where
  access_token : String
  refresh_token : String
  expires_at : Int
deriving Repr, DecidableEq

/-- The token store cell `tokens : SpotifyTokens | null`. -/
abbrev TokenStore := Option SpotifyTokens

/-- Method `setTokens(accessToken, refreshToken, expiresIn)`: overwrites the record
with `expires_at = Date.now() + expiresIn * 1000`.  `now` is the synthetic
clock in milliseconds, `expiresIn` is in seconds. -/
def setTokens (now : Int) (accessToken refreshToken : String) (expiresIn : Int) : TokenStore :=
  some { access_token := accessToken
         refresh_token := refreshToken
         expires_at := now + expiresIn * 1000 }

/-- Method `getAccessToken()`: `this.tokens?.access_token || null`
(the empty string is falsy, hence mapped to `null`). -/
def getAccessToken : TokenStore → Option String
  | none => none
  | some t => if t.access_token == "" then none else some t.access_token

/-- Method `getRefreshToken()`: `this.tokens?.refresh_token || null`. -/
def getRefreshToken : TokenStore → Option String
  | none => none
  | some t => if t.refresh_token == "" then none else some t.refresh_token

/-- Method `isTokenExpired()`: true when no record exists, or
`Date.now() >= expires_at - 5 * 60 * 1000` (5-minute safety margin). -/
def isTokenExpired (now : Int) : TokenStore → Bool
  | none => true
  | some t => decide (now ≥ t.expires_at - 5 * 60 * 1000)

/-- Method `clearTokens()`: drops the record. -/
def clearTokens : TokenStore := none

/-- C4: for a token set with `expires_in = E` seconds the store records
`expiresAt = setTime + E` seconds; `isTokenExpired` is true exactly when no
record exists or the clock is at or past `expiresAt - 300` seconds; with a
synthetic clock it is still false `E - 301` seconds after setting and already
true `E - 299` seconds after setting. -/
theorem isTokenExpired_margin (t0 E : Int) (a r : String) :
    (setTokens t0 a r E = some { access_token := a, refresh_token := r,
                                 expires_at := t0 + E * 1000 }) ∧
    isTokenExpired (t0 + (E - 301) * 1000) (setTokens t0 a r E) = false ∧
    isTokenExpired (t0 + (E - 299) * 1000) (setTokens t0 a r E) = true ∧
    (∀ now : Int, ∀ st : TokenStore,
      isTokenExpired now st = true ↔
        st = none ∨ ∃ rec, st = some rec ∧ now ≥ rec.expires_at - 300 * 1000) := by
  refine ⟨rfl, ?_, ?_, ?_⟩
  · simp only [setTokens, isTokenExpired, decide_eq_false_iff_not, not_le]
    omega
  · simp only [setTokens, isTokenExpired, decide_eq_true_eq]
    omega
  · intro now st
    cases st with
    | none => simp [isTokenExpired]
    | some rec =>
      simp only [isTokenExpired, decide_eq_true_eq]
      constructor
      · intro h
        exact Or.inr ⟨rec, rfl, by omega⟩
      · rintro (h | ⟨rec', hrec, h⟩)
        · exact absurd h (by simp)
        · obtain rfl : rec = rec' := Option.some.inj hrec
          omega

/-! ## SpotifyGateway (`getValidServerToken` / `spotifyApiCall` in routes.ts)

Outbound effects are scripted: `refreshScript n` is the outcome of the
`n`-th call to `refreshAccessToken` within the operation, `fetchScript n`
the response to the `n`-th `fetch` of the target URL.  Handlers return how
many entries of each script they consumed. -/

/-- The JSON body returned by Spotify's token endpoint on a successful
refresh: `{access_token, refresh_token?, expires_in?}`. -/
structure RefreshedTokens where
  access_token : String
  refresh_token : Option String
  expires_in : Option Int
deriving Repr, DecidableEq

/-- Outcome of one `refreshAccessToken(refreshToken)` call: either the
parsed token body, or a thrown error message. -/
inductive RefreshOutcome where
  | ok (tokens : RefreshedTokens)
  | err (msg : String)
deriving Repr, DecidableEq

/-- An HTTP response as seen by the gateway (only the status line matters
to the retry policy; `ok` is status 200..299). -/
structure FetchResponse where
  status : Nat
deriving Repr, DecidableEq

/-- Function `getValidServerToken()`: returns `null` when no access token is stored;
refreshes first (storing the new pair, falling back to the old refresh token
and to 3600 seconds via `||`) when the stored token is expired; clears the
store and returns `null` when that refresh throws.  Result: the token,
the updated store, and the number of refresh calls consumed. -/
def getValidServerToken (now : Int) (st : TokenStore)
    (refreshScript : Nat → RefreshOutcome) :
    Option String × TokenStore × Nat :=
  match getAccessToken st with
  | none => (none, st, 0)
  | some _ =>
    if isTokenExpired now st then
      match getRefreshToken st with
      | none => (none, st, 0)
      | some refreshToken =>
        match refreshScript 0 with
        | .ok tokens =>
          (some tokens.access_token,
           setTokens now tokens.access_token
             (jsOrStr tokens.refresh_token refreshToken)
             (jsOrInt tokens.expires_in 3600), 1)
        | .err _ => (none, clearTokens, 1)
    else (getAccessToken st, st, 0)

/-- Result of one `spotifyApiCall`: the returned response or the thrown
error message, the token store afterwards, and the number of `fetch`es and
of refresh-token calls performed. -/
structure GatewayResult where
  result : Except String FetchResponse
  store : TokenStore
  fetchesUsed : Nat
  refreshesUsed : Nat
deriving Repr

/-- Function `spotifyApiCall(url, options, retryOn401)`: obtain a valid token (throw
when none), issue the request; on a 401 with `retryOn401` enabled and a
stored refresh token, perform one refresh (throwing
"Authentication failed: Token refresh unsuccessful" when the refresh itself
throws) and reissue the request once, returning that second response as-is. -/
def spotifyApiCall (now : Int) (st : TokenStore)
    (refreshScript : Nat → RefreshOutcome) (fetchScript : Nat → FetchResponse)
    (retryOn401 : Bool) : GatewayResult :=
  match getValidServerToken now st refreshScript with
  | (none, st1, rUsed) =>
    { result := .error "No valid access token available",
      store := st1, fetchesUsed := 0, refreshesUsed := rUsed }
  | (some _, st1, rUsed) =>
    let response := fetchScript 0
    if response.status == 401 && retryOn401 then
      match getRefreshToken st1 with
      | none =>
        { result := .ok response, store := st1,
          fetchesUsed := 1, refreshesUsed := rUsed }
      | some refreshToken =>
        match refreshScript rUsed with
        | .ok tokens =>
          { result := .ok (fetchScript 1),
            store := setTokens now tokens.access_token
              (jsOrStr tokens.refresh_token refreshToken)
              (jsOrInt tokens.expires_in 3600),
            fetchesUsed := 2, refreshesUsed := rUsed + 1 }
        | .err _ =>
          { result := .error "Authentication failed: Token refresh unsuccessful",
            store := st1, fetchesUsed := 1, refreshesUsed := rUsed + 1 }
    else
      { result := .ok response, store := st1,
        fetchesUsed := 1, refreshesUsed := rUsed }

/-- C3: with `retryOn401` enabled, a stored (non-expired) token pair and a
first response of 401, the gateway performs exactly one refresh-and-retry
cycle: one refresh call, one reissue, the second response returned as-is
with no further retries even when it is again a 401; when the refresh
throws, the call fails after the single original fetch; when the retried
request returns 200 the call succeeds with that response. -/
theorem spotifyApiCall_retry_once (now : Int) (st : SpotifyTokens)
    (refreshScript : Nat → RefreshOutcome) (fetchScript : Nat → FetchResponse)
    (hAccess : st.access_token ≠ "")
    (hRefresh : st.refresh_token ≠ "")
    (hFresh : isTokenExpired now (some st) = false)
    (h401 : (fetchScript 0).status = 401) :
    (∀ tokens, refreshScript 0 = .ok tokens →
      spotifyApiCall now (some st) refreshScript fetchScript true =
        { result := .ok (fetchScript 1),
          store := setTokens now tokens.access_token
            (jsOrStr tokens.refresh_token st.refresh_token)
            (jsOrInt tokens.expires_in 3600),
          fetchesUsed := 2, refreshesUsed := 1 }) ∧
    (∀ msg, refreshScript 0 = .err msg →
      spotifyApiCall now (some st) refreshScript fetchScript true =
        { result := .error "Authentication failed: Token refresh unsuccessful",
          store := some st, fetchesUsed := 1, refreshesUsed := 1 }) ∧
    (∀ tokens, refreshScript 0 = .ok tokens → (fetchScript 1).status = 200 →
      ∃ r, (spotifyApiCall now (some st) refreshScript fetchScript true).result
            = .ok r ∧ r.status = 200) := by
  have hga : getAccessToken (some st) = some st.access_token := by
    simp [getAccessToken, hAccess]
  have hgr : getRefreshToken (some st) = some st.refresh_token := by
    simp [getRefreshToken, hRefresh]
  have hgvt : getValidServerToken now (some st) refreshScript
      = (some st.access_token, some st, 0) := by
    unfold getValidServerToken
    rw [hga, hFresh]
    simp [hga]
  have hcall : ∀ o, refreshScript 0 = o →
      spotifyApiCall now (some st) refreshScript fetchScript true =
        match o with
        | .ok tokens =>
          { result := .ok (fetchScript 1),
            store := setTokens now tokens.access_token
              (jsOrStr tokens.refresh_token st.refresh_token)
              (jsOrInt tokens.expires_in 3600),
            fetchesUsed := 2, refreshesUsed := 1 }
        | .err _ =>
          { result := .error "Authentication failed: Token refresh unsuccessful",
            store := some st, fetchesUsed := 1, refreshesUsed := 1 } := by
    intro o ho
    unfold spotifyApiCall
    rw [hgvt]
    simp only [h401, hgr, ho]
    cases o <;> simp
  refine ⟨?_, ?_, ?_⟩
  · intro tokens ho; simpa using hcall (.ok tokens) ho
  · intro msg ho; simpa using hcall (.err msg) ho
  · intro tokens ho h200
    refine ⟨fetchScript 1, ?_, h200⟩
    rw [hcall (.ok tokens) ho]

/-- Concrete witness for `spotifyApiCall_retry_once`: a stored fresh token
pair, a 401 then a 200 response, and a successful refresh. -/
theorem spotifyApiCall_retry_once_witness :
    let st : SpotifyTokens := { access_token := "tokA", refresh_token := "ref", expires_at := 10000000 }
    let rs : Nat → RefreshOutcome := fun _ => .ok { access_token := "tokB", refresh_token := none, expires_in := some 3600 }
    let fs : Nat → FetchResponse := fun n => if n = 0 then { status := 401 } else { status := 200 }
    ∃ r, (spotifyApiCall 0 (some st) rs fs true).result = .ok r ∧ r.status = 200 :=
  (spotifyApiCall_retry_once 0
      { access_token := "tokA", refresh_token := "ref", expires_at := 10000000 }
      (fun _ => .ok { access_token := "tokB", refresh_token := none, expires_in := some 3600 })
      (fun n => if n = 0 then { status := 401 } else { status := 200 })
      (by decide) (by decide) (by decide) (by decide)).2.2
    { access_token := "tokB", refresh_token := none, expires_in := some 3600 }
    rfl rfl

/-! ## GET /api/spotify/status -/

/-- The `/api/spotify/status` handler: obtains a (possibly refreshed) token
via `getValidServerToken`, then reports
`authenticated = !!token` and `hasToken = !!spotifyTokens.getAccessToken()`
(the store as left by the preceding `getValidServerToken` call). -/
def statusHandler (now : Int) (st : TokenStore) (rs : Nat → RefreshOutcome) :
    Bool × Bool :=
  let token := (getValidServerToken now st rs).1
  let st1 := (getValidServerToken now st rs).2.1
  let hasToken := (getAccessToken st1).isSome
  let authenticated := truthyStr token
  (authenticated, hasToken)

/-- Whenever `getValidServerToken` hands back a truthy token, the store it
leaves behind still holds a non-empty access token. -/
theorem getValidServerToken_truthy_stored (now : Int) (st : TokenStore)
    (rs : Nat → RefreshOutcome)
    (h : truthyStr (getValidServerToken now st rs).1 = true) :
    (getAccessToken (getValidServerToken now st rs).2.1).isSome = true := by
  cases st with
  | none => simp [getValidServerToken, getAccessToken, truthyStr] at h
  | some t =>
    by_cases ha : t.access_token = ""
    · simp [getValidServerToken, getAccessToken, ha, truthyStr] at h
    · by_cases hexp : isTokenExpired now (some t) = true
      · by_cases hr : t.refresh_token = ""
        · simp [getValidServerToken, getAccessToken, getRefreshToken,
            ha, hr, hexp, truthyStr] at h
        · cases hro : rs 0 with
          | ok tokens =>
            have hta : ¬ tokens.access_token = "" := by
              have := h
              simp [getValidServerToken, getAccessToken, getRefreshToken,
                ha, hr, hexp, hro, truthyStr] at this
              exact this
            simp [getValidServerToken, getAccessToken, getRefreshToken,
              ha, hr, hexp, hro, setTokens, hta]
          | err m =>
            simp [getValidServerToken, getAccessToken, getRefreshToken,
              ha, hr, hexp, hro, truthyStr] at h
      · simp [getValidServerToken, getAccessToken, ha, hexp, truthyStr]

/-- C10: in every `/api/spotify/status` response, `authenticated: true`
implies `hasToken: true` — a usable token reported by `getValidServerToken`
is always backed by a non-empty stored access token at the moment
`hasToken` is computed. -/
theorem status_authenticated_implies_hasToken (now : Int) (st : TokenStore)
    (rs : Nat → RefreshOutcome)
    (h : (statusHandler now st rs).1 = true) :
    (statusHandler now st rs).2 = true := by
  unfold statusHandler at *
  exact getValidServerToken_truthy_stored now st rs h

/-- Concrete witness for `status_authenticated_implies_hasToken`: a stored
fresh token makes the status endpoint report both flags true. -/
theorem status_authenticated_implies_hasToken_witness :
    (statusHandler 0 (some { access_token := "tokA", refresh_token := "ref",
                             expires_at := 10000000 }) (fun _ => .err "down")).1 = true ∧
    (statusHandler 0 (some { access_token := "tokA", refresh_token := "ref",
                             expires_at := 10000000 }) (fun _ => .err "down")).2 = true :=
  ⟨by decide,
   status_authenticated_implies_hasToken 0
     (some { access_token := "tokA", refresh_token := "ref", expires_at := 10000000 })
     (fun _ => .err "down") (by decide)⟩

/-! ## GET /api/spotify/now-playing -/

/-- The `item` of Spotify's currently-playing body: track name, artist
names, and the first album image URL. -/
structure NowPlayingItem where
  name : String
  artistNames : List String
  image : Option String
deriving Repr, DecidableEq

/-- The parsed response of `GET /me/player/currently-playing`. -/
structure NowPlayingResponse where
  status : Nat
  is_playing : Bool
  item : Option NowPlayingItem
deriving Repr, DecidableEq

/-- The `track` object of the handler's response body. -/
structure NowPlayingTrack where
  name : String
  artist : String
  image : Option String
deriving Repr, DecidableEq

/-- The `/api/spotify/now-playing` response body
`{playing: bool, track: {...} | null}`. -/
structure NowPlayingBody where
  playing : Bool
  track : Option NowPlayingTrack
deriving Repr, DecidableEq

/-- Projection of a Spotify item into the client-facing track shape
(artists joined with a comma). -/
def renderNowPlayingItem (it : NowPlayingItem) : NowPlayingTrack :=
  { name := it.name, artist := String.intercalate ", " it.artistNames,
    image := it.image }

/-- The `/api/spotify/now-playing` handler.  `npCall` is the outcome of the
`spotifyApiCall` on `/me/player/currently-playing` (no 401-retry): either a
thrown error message or a parsed response.  Every failure path — no usable
token, a thrown call, a 204, a non-success status — degrades to HTTP 200
with `{playing: false, track: null}`. -/
def nowPlayingHandler (now : Int) (st : TokenStore) (rs : Nat → RefreshOutcome)
    (npCall : Except String NowPlayingResponse) : Nat × NowPlayingBody :=
  if !truthyStr (getValidServerToken now st rs).1 then
    (200, { playing := false, track := none })
  else
    match npCall with
    | .error _ => (200, { playing := false, track := none })
    | .ok resp =>
      if resp.status == 204 then (200, { playing := false, track := none })
      else if !respOk resp.status then (200, { playing := false, track := none })
      else (200, { playing := resp.is_playing,
                   track := resp.item.map renderNowPlayingItem })

/-- C8: the now-playing endpoint always answers HTTP 200 with a
`{playing, track}` body; with no token stored it is exactly
`{playing: false, track: null}`; and in general the body is either that
degraded value or the rendering of a successful (non-204) Spotify response
— never a 401 or 500. -/
theorem nowPlaying_always_200 (now : Int) (st : TokenStore)
    (rs : Nat → RefreshOutcome) (npCall : Except String NowPlayingResponse) :
    (nowPlayingHandler now st rs npCall).1 = 200 ∧
    nowPlayingHandler now none rs npCall = (200, { playing := false, track := none }) ∧
    ((nowPlayingHandler now st rs npCall).2 = { playing := false, track := none } ∨
      ∃ resp, npCall = .ok resp ∧ respOk resp.status = true ∧ resp.status ≠ 204 ∧
        (nowPlayingHandler now st rs npCall).2 =
          { playing := resp.is_playing,
            track := resp.item.map renderNowPlayingItem }) := by
  refine ⟨?_, ?_, ?_⟩
  · by_cases htok : truthyStr (getValidServerToken now st rs).1
    · cases npCall with
      | error e => simp [nowPlayingHandler, htok]
      | ok resp =>
        by_cases h204 : resp.status == 204 <;> by_cases hok : respOk resp.status <;>
          simp [nowPlayingHandler, htok, h204, hok]
    · simp [nowPlayingHandler, htok]
  · simp [nowPlayingHandler, getValidServerToken, getAccessToken, truthyStr]
  · by_cases htok : truthyStr (getValidServerToken now st rs).1
    · cases npCall with
      | error e => exact Or.inl (by simp [nowPlayingHandler, htok])
      | ok resp =>
        by_cases h204 : resp.status == 204
        · exact Or.inl (by simp [nowPlayingHandler, htok, h204])
        · by_cases hok : respOk resp.status
          · refine Or.inr ⟨resp, rfl, hok, by simpa using h204, ?_⟩
            simp [nowPlayingHandler, htok, h204, hok]
          · exact Or.inl (by simp [nowPlayingHandler, htok, h204, hok])
    · exact Or.inl (by simp [nowPlayingHandler, htok])

/-! ## RadioPlaylistManager (`getOrCreateRadioPlaylist` in routes.ts) -/

/-- A Spotify gateway request, as recorded in a handler's trace. -/
inductive SpotifyCall where
  | getPlaylist (id : String)
  | getMe
  | createPlaylist (userId : String)
  | play (contextUri : Option String)
  | pause
  | skipToNext
  | setVolume (v : Int)
deriving Repr, DecidableEq

/-- The process-wide `radioPlaylist` reference cell. -/
structure PlaylistState where
  playlistId : Option String
deriving Repr, DecidableEq

/-- A response whose JSON body carries an `id` field (`GET /me`,
`POST /users/{id}/playlists`). -/
structure IdResponse where
  status : Nat
  id : String
deriving Repr, DecidableEq

/-- Scripted outcomes for one `getOrCreateRadioPlaylist` run: the
verification `GET /playlists/{id}`, the token available at creation time,
the `GET /me` identity lookup, and the playlist-creation `POST`.  An
`Except.error` models the gateway call throwing. -/
structure PlaylistEnv where
  verify : Except String FetchResponse
  token : Option String
  userRes : Except String IdResponse
  createRes : Except String IdResponse
deriving Repr

/-- The creation phase of `getOrCreateRadioPlaylist`: require a valid
token, fetch the user id, create the "Radio Queue" playlist, store and
return its id.  Any failure propagates as a thrown error and leaves the
cached reference as it was. -/
def createRadioPlaylist (st : PlaylistState) (env : PlaylistEnv)
    (trace : List SpotifyCall) :
    Except String String × PlaylistState × List SpotifyCall :=
  if !truthyStr env.token then
    (.error "No valid access token available", st, trace)
  else
    match env.userRes with
    | .error e => (.error e, st, trace ++ [.getMe])
    | .ok userResp =>
      if !respOk userResp.status then
        (.error "Failed to get user info", st, trace ++ [.getMe])
      else
        match env.createRes with
        | .error e => (.error e, st, trace ++ [.getMe, .createPlaylist userResp.id])
        | .ok createResp =>
          if !respOk createResp.status then
            (.error "Failed to create playlist", st,
             trace ++ [.getMe, .createPlaylist userResp.id])
          else
            (.ok createResp.id, { playlistId := some createResp.id },
             trace ++ [.getMe, .createPlaylist userResp.id])

/-- Function `getOrCreateRadioPlaylist()`: when a cached id exists, verify it with a
single `GET /playlists/{id}` (no 401-retry) and return it when the response
is ok; when the verification GET throws, clear the cached reference; when
it merely returns a non-ok status, fall through without clearing.  In both
fall-through cases (and when no id is cached) run the creation phase, which
overwrites the cached reference on success. -/
def getOrCreateRadioPlaylist (st : PlaylistState) (env : PlaylistEnv) :
    Except String String × PlaylistState × List SpotifyCall :=
  match st.playlistId with
  | some existingId =>
    if existingId == "" then createRadioPlaylist st env []
    else
      match env.verify with
      | .ok resp =>
        if respOk resp.status then (.ok existingId, st, [.getPlaylist existingId])
        else createRadioPlaylist st env [.getPlaylist existingId]
      | .error _ =>
        createRadioPlaylist { playlistId := none } env [.getPlaylist existingId]
  | none => createRadioPlaylist st env []

/-- C7: with a valid cached id the call returns it after exactly one
verification GET and no mutation, leaving the reference untouched; when the
cached id fails verification (e.g. a 404 response) and creation succeeds,
the old reference is replaced by the newly created playlist id, which is
returned; and a subsequent call that verifies the new id successfully
reuses it with one GET and no re-creation. -/
theorem getOrCreateRadioPlaylist_policy (st : PlaylistState) (env env2 : PlaylistEnv)
    (id : String) (hid : st.playlistId = some id) (hne : id ≠ "") :
    (∀ resp, env.verify = .ok resp → respOk resp.status = true →
      getOrCreateRadioPlaylist st env = (.ok id, st, [.getPlaylist id])) ∧
    (∀ resp uresp cresp,
      env.verify = .ok resp → respOk resp.status = false →
      truthyStr env.token = true →
      env.userRes = .ok uresp → respOk uresp.status = true →
      env.createRes = .ok cresp → respOk cresp.status = true →
      getOrCreateRadioPlaylist st env =
        (.ok cresp.id, { playlistId := some cresp.id },
         [.getPlaylist id, .getMe, .createPlaylist uresp.id]) ∧
      (∀ resp2, env2.verify = .ok resp2 → respOk resp2.status = true →
        cresp.id ≠ "" →
        getOrCreateRadioPlaylist { playlistId := some cresp.id } env2 =
          (.ok cresp.id, { playlistId := some cresp.id },
           [.getPlaylist cresp.id]))) := by
  constructor
  · intro resp hv hok
    simp [getOrCreateRadioPlaylist, hid, hne, hv, hok]
  · intro resp uresp cresp hv hbad htok huser huok hcreate hcok
    constructor
    · simp [getOrCreateRadioPlaylist, createRadioPlaylist, hid, hne, hv, hbad,
        htok, huser, huok, hcreate, hcok]
    · intro resp2 hv2 hok2 hcne
      simp [getOrCreateRadioPlaylist, hv2, hok2, hcne]

/-- Concrete witness for `getOrCreateRadioPlaylist_policy`: a cached id
that 404s on verification is replaced by a freshly created playlist id. -/
theorem getOrCreateRadioPlaylist_policy_witness :
    let st : PlaylistState := { playlistId := some "oldpl" }
    let env : PlaylistEnv :=
      { verify := .ok { status := 404 }, token := some "tok",
        userRes := .ok { status := 200, id := "user1" },
        createRes := .ok { status := 201, id := "newpl" } }
    let env2 : PlaylistEnv :=
      { verify := .ok { status := 200 }, token := some "tok",
        userRes := .error "unused", createRes := .error "unused" }
    getOrCreateRadioPlaylist st env =
      (.ok "newpl", { playlistId := some "newpl" },
       [.getPlaylist "oldpl", .getMe, .createPlaylist "user1"]) ∧
    getOrCreateRadioPlaylist { playlistId := some "newpl" } env2 =
      (.ok "newpl", { playlistId := some "newpl" }, [.getPlaylist "newpl"]) := by
  have h := (getOrCreateRadioPlaylist_policy
    { playlistId := some "oldpl" }
    { verify := .ok { status := 404 }, token := some "tok",
      userRes := .ok { status := 200, id := "user1" },
      createRes := .ok { status := 201, id := "newpl" } }
    { verify := .ok { status := 200 }, token := some "tok",
      userRes := .error "unused", createRes := .error "unused" }
    "oldpl" rfl (by decide)).2
    { status := 404 } { status := 200, id := "user1" } { status := 201, id := "newpl" }
    rfl (by decide) (by decide) rfl (by decide) rfl (by decide)
  exact ⟨h.1, h.2 { status := 200 } rfl (by decide) (by decide)⟩

/-! ## POST /api/spotify/control -/

/-- The HTTP outcome of a control request, with the trace of Spotify
gateway calls the handler issued. -/
structure ControlResult where
  status : Nat
  success : Bool
  errorMsg : Option String
  trace : List SpotifyCall
deriving Repr

/-- Scripted Spotify-side outcomes for one control request: the playlist
reference and its environment (used by the `play` action), the main control
call, and the fallback plain `play` call. -/
structure ControlEnv where
  plState : PlaylistState
  plEnv : PlaylistEnv
  mainCall : Except String FetchResponse
  fallbackCall : Except String FetchResponse
deriving Repr

/-- The final step shared by all control actions: a non-ok, non-204
response throws (surfaced as a 500 with Spotify's message when available),
anything else reports `{success: true}`. -/
def finishControl (resp : FetchResponse) (trace : List SpotifyCall) : ControlResult :=
  if !respOk resp.status && !(resp.status == 204) then
    { status := 500, success := false,
      errorMsg := some "Control action failed", trace := trace }
  else
    { status := 200, success := true, errorMsg := none, trace := trace }

/-- The `play` action's fallback branch: a plain resume without context
(its own failure propagates to the outer catch as a 500). -/
def controlPlayFallback (env : ControlEnv) (trace : List SpotifyCall) : ControlResult :=
  match env.fallbackCall with
  | .ok resp => finishControl resp (trace ++ [.play none])
  | .error e =>
    { status := 500, success := false, errorMsg := some e,
      trace := trace ++ [.play none] }

/-- The `/api/spotify/control` handler: requires the admin password to be
configured (500 otherwise) and to match the `password` header exactly (401
otherwise) before any Spotify call; then dispatches on the `action` string
(`play` preferring the radio playlist as context with a plain-play
fallback; `pause`, `next`, `volume` as passthroughs; unknown actions and a
missing volume rejected with 400). -/
def controlHandler (adminPassword passwordHeader action : Option String)
    (volume : Option Int) (env : ControlEnv) : ControlResult :=
  if !truthyStr adminPassword then
    { status := 500, success := false,
      errorMsg := some "Server configuration error: Admin password not set",
      trace := [] }
  else if !(passwordHeader == adminPassword) then
    { status := 401, success := false, errorMsg := some "Unauthorized", trace := [] }
  else
    match action with
    | some "play" =>
      match getOrCreateRadioPlaylist env.plState env.plEnv with
      | (.ok pid, _, tr) =>
        match env.mainCall with
        | .ok resp =>
          finishControl resp (tr ++ [.play (some ("spotify:playlist:" ++ pid))])
        | .error _ =>
          controlPlayFallback env (tr ++ [.play (some ("spotify:playlist:" ++ pid))])
      | (.error _, _, tr) => controlPlayFallback env tr
    | some "pause" =>
      match env.mainCall with
      | .ok resp => finishControl resp [.pause]
      | .error e => { status := 500, success := false, errorMsg := some e, trace := [.pause] }
    | some "next" =>
      match env.mainCall with
      | .ok resp => finishControl resp [.skipToNext]
      | .error e => { status := 500, success := false, errorMsg := some e, trace := [.skipToNext] }
    | some "volume" =>
      match volume with
      | none =>
        { status := 400, success := false,
          errorMsg := some "Volume value required", trace := [] }
      | some v =>
        match env.mainCall with
        | .ok resp => finishControl resp [.setVolume v]
        | .error e => { status := 500, success := false, errorMsg := some e, trace := [.setVolume v] }
    | _ =>
      { status := 400, success := false, errorMsg := some "Invalid action", trace := [] }

/-- C9: when the admin password is configured and the request's `password`
header does not equal it, the control endpoint answers 401 "Unauthorized"
and issues no Spotify call whatsoever — for every action value (including
`pause`) and independently of the Spotify-side environment. -/
theorem control_wrong_password_401 (adminPassword passwordHeader action : Option String)
    (volume : Option Int) (env : ControlEnv)
    (hcfg : truthyStr adminPassword = true)
    (hne : passwordHeader ≠ adminPassword) :
    controlHandler adminPassword passwordHeader action volume env =
      { status := 401, success := false, errorMsg := some "Unauthorized",
        trace := [] } := by
  have hb : (passwordHeader == adminPassword) = false := by
    simpa using hne
  simp [controlHandler, hcfg, hb]

/-- Concrete witness for `control_wrong_password_401`: a `pause` request
with a wrong password header is rejected with 401 and an empty call trace. -/
theorem control_wrong_password_401_witness :
    truthyStr (some "secret") = true ∧
    (some "wrong" : Option String) ≠ some "secret" ∧
    controlHandler (some "secret") (some "wrong") (some "pause") none
      { plState := { playlistId := none },
        plEnv := { verify := .error "unused", token := none,
                   userRes := .error "unused", createRes := .error "unused" },
        mainCall := .ok { status := 200 }, fallbackCall := .ok { status := 200 } } =
      { status := 401, success := false, errorMsg := some "Unauthorized",
        trace := [] } :=
  ⟨by decide, by decide,
   control_wrong_password_401 (some "secret") (some "wrong") (some "pause") none
     { plState := { playlistId := none },
       plEnv := { verify := .error "unused", token := none,
                  userRes := .error "unused", createRes := .error "unused" },
       mainCall := .ok { status := 200 }, fallbackCall := .ok { status := 200 } }
     (by decide) (by decide)⟩

/-! ## GET /api/spotify/queue — reconciled view (merged revision of routes.ts) -/

/-- A track as projected into the queue view (identified by its URI; the
remaining DTO fields ride along unchanged). -/
structure QTrack where
  uri : String
  name : String
deriving Repr, DecidableEq

/-- One `items[]` entry of a playlist-tracks page: a possibly-null track
and the `is_local` flag. -/
structure PlaylistEntry where
  track : Option QTrack
  is_local : Bool
deriving Repr, DecidableEq

/-- The playlist side of the view: null tracks and local files are
filtered out, the rest projected in playlist order. -/
def playlistViewTracks (items : List PlaylistEntry) : List QTrack :=
  (items.filter (fun it => it.track.isSome && !it.is_local)).filterMap
    (fun it => it.track)

/-- The merge step of the queue view: immediate player-queue items first in
Spotify-reported order, then the playlist tracks whose URI is not in the
immediate set, in playlist order. -/
def reconcileQueue (immediateQueue : List QTrack)
    (playlistItems : List PlaylistEntry) : List QTrack :=
  let playlistTracks := playlistViewTracks playlistItems
  let immediateUris := immediateQueue.map (fun t => t.uri)
  let filteredPlaylistTracks :=
    playlistTracks.filter (fun t => !(immediateUris.contains t.uri))
  immediateQueue ++ filteredPlaylistTracks

/-- C2 counterexample: de-duplication only happens *between* the two
sources; an immediate player queue that itself reports the same URI twice
(Spotify permits queueing a track twice) flows through unchanged, so the
combined sequence repeats that URI, contradicting the claimed universal
no-duplicates invariant. -/
theorem reconcileQueue_duplicate_uri :
    reconcileQueue
      [{ uri := "spotify:track:A", name := "A" },
       { uri := "spotify:track:A", name := "A" }] [] =
      [{ uri := "spotify:track:A", name := "A" },
       { uri := "spotify:track:A", name := "A" }] ∧
    ¬ ((reconcileQueue
      [{ uri := "spotify:track:A", name := "A" },
       { uri := "spotify:track:A", name := "A" }] []).map
        (fun t => t.uri)).Nodup := by
  constructor
  · rfl
  · decide

/-- C2 (amended): the view lists the immediate-queue items first in
reported order, then the playlist tracks whose URI does not occur in the
immediate queue, in playlist order; provided each source is itself
duplicate-free by URI, no URI appears twice in the combined sequence; and
on immediate queue `[A, B]` with playlist `[B, C, A]` the result is exactly
`[A, B, C]`. -/
theorem reconcileQueue_merge (imm : List QTrack) (pl : List PlaylistEntry)
    (h1 : (imm.map (fun t => t.uri)).Nodup)
    (h2 : ((playlistViewTracks pl).map (fun t => t.uri)).Nodup) :
    reconcileQueue imm pl =
      imm ++ (playlistViewTracks pl).filter
        (fun t => !((imm.map (fun s => s.uri)).contains t.uri)) ∧
    ((reconcileQueue imm pl).map (fun t => t.uri)).Nodup ∧
    reconcileQueue
      [{ uri := "spotify:track:A", name := "A" },
       { uri := "spotify:track:B", name := "B" }]
      [{ track := some { uri := "spotify:track:B", name := "B" }, is_local := false },
       { track := some { uri := "spotify:track:C", name := "C" }, is_local := false },
       { track := some { uri := "spotify:track:A", name := "A" }, is_local := false }] =
      [{ uri := "spotify:track:A", name := "A" },
       { uri := "spotify:track:B", name := "B" },
       { uri := "spotify:track:C", name := "C" }] := by
  refine ⟨rfl, ?_, by decide⟩
  simp only [reconcileQueue, List.map_append]
  refine List.Nodup.append ?_ ?_ ?_
  · exact h1
  · exact ((List.filter_sublist _).map _).nodup h2
  · intro a ha ha'
    rcases List.mem_map.mp ha' with ⟨t, ht, rfl⟩
    rcases List.mem_filter.mp ht with ⟨_, hp⟩
    rw [Bool.not_eq_eq_eq_not, Bool.not_true, List.contains_eq_any_beq] at hp
    have : t.uri ∉ List.map (fun t => t.uri) imm := by
      intro hmem
      have : (List.map (fun t => t.uri) imm).any (fun x => t.uri == x) = true :=
        List.any_eq_true.mpr ⟨t.uri, hmem, by simp⟩
      rw [this] at hp
      cases hp
    exact this ha

/-- Concrete witness for `reconcileQueue_merge` at the claim's own example:
immediate `[A, B]`, playlist `[B, C, A]`, result `[A, B, C]` with no
duplicate URIs. -/
theorem reconcileQueue_merge_witness :
    ((reconcileQueue
      [{ uri := "spotify:track:A", name := "A" },
       { uri := "spotify:track:B", name := "B" }]
      [{ track := some { uri := "spotify:track:B", name := "B" }, is_local := false },
       { track := some { uri := "spotify:track:C", name := "C" }, is_local := false },
       { track := some { uri := "spotify:track:A", name := "A" }, is_local := false }]).map
        (fun t => t.uri)).Nodup :=
  (reconcileQueue_merge
    [{ uri := "spotify:track:A", name := "A" },
     { uri := "spotify:track:B", name := "B" }]
    [{ track := some { uri := "spotify:track:B", name := "B" }, is_local := false },
     { track := some { uri := "spotify:track:C", name := "C" }, is_local := false },
     { track := some { uri := "spotify:track:A", name := "A" }, is_local := false }]
    (by decide) (by decide)).2.2 ▸
  (reconcileQueue_merge
    [{ uri := "spotify:track:A", name := "A" },
     { uri := "spotify:track:B", name := "B" }]
    [{ track := some { uri := "spotify:track:B", name := "B" }, is_local := false },
     { track := some { uri := "spotify:track:C", name := "C" }, is_local := false },
     { track := some { uri := "spotify:track:A", name := "A" }, is_local := false }]
    (by decide) (by decide)).2.1

/-! ## POST /api/spotify/queue — URI resolution and append policy
(merged revision of routes.ts, the one with both appends) -/

/-- One entry of a search response's `tracks.items`. -/
structure SearchTrack where
  uri : String
deriving Repr, DecidableEq

/-- The parsed outcome of the track-search gateway call. -/
structure SearchResponse where
  status : Nat
  items : List SearchTrack
deriving Repr, DecidableEq

/-- A search request as issued by the enqueue handler: the raw query and
the `type`/`limit` URL parameters. -/
structure SearchCall where
  q : String
  stype : String
  limit : Nat
deriving Repr, DecidableEq

/-- Result of the URI-resolution prefix of the enqueue handler. -/
inductive ResolveResult where
  | badRequest
  | notAuthenticated
  | notFound (songName : String)
  | threw (msg : String)
  | resolved (trackUri : String)
deriving Repr, DecidableEq

/-- The HTTP status each resolution failure maps to (`resolved` continues
into the append phase). -/
def resolveStatus : ResolveResult → Option Nat
  | .badRequest => some 400
  | .notAuthenticated => some 401
  | .notFound _ => some 404
  | .threw _ => some 500
  | .resolved _ => none

/-- The URI-resolution prefix of the enqueue handler: reject when neither
`songName` nor `uri` is given; reject when no valid server token exists;
when a (truthy) `uri` is supplied use it verbatim with no search; otherwise
search with `type=track&limit=1` and take the first item's URI, reporting
`notFound` when the result list is empty.  Also returns the list of search
calls issued. -/
def resolveTrackUri (songName uri : Option String) (tokenOk : Bool)
    (searchCall : Except String SearchResponse) :
    ResolveResult × List SearchCall :=
  if !truthyStr songName && !truthyStr uri then (.badRequest, [])
  else if !tokenOk then (.notAuthenticated, [])
  else if truthyStr songName && !truthyStr uri then
    match searchCall with
    | .error e => (.threw e, [{ q := songName.getD "", stype := "track", limit := 1 }])
    | .ok resp =>
      if !respOk resp.status then
        (.threw "Search failed", [{ q := songName.getD "", stype := "track", limit := 1 }])
      else
        match resp.items with
        | [] => (.notFound (songName.getD ""),
                 [{ q := songName.getD "", stype := "track", limit := 1 }])
        | t :: _ => (.resolved t.uri,
                     [{ q := songName.getD "", stype := "track", limit := 1 }])
  else (.resolved (uri.getD ""), [])

/-- C6: URI resolution is deterministic — a supplied track URI is used
verbatim with zero search calls; a free-text song name triggers exactly one
`type=track&limit=1` search whose first result's URI is used; an empty
search result yields the 404 `notFound` outcome. -/
theorem resolveTrackUri_deterministic (songName uri : Option String)
    (searchCall : Except String SearchResponse) :
    (∀ u, uri = some u → u ≠ "" →
      resolveTrackUri songName uri true searchCall = (.resolved u, [])) ∧
    (∀ q, songName = some q → q ≠ "" → truthyStr uri = false →
      (resolveTrackUri songName uri true searchCall).2 =
        [{ q := q, stype := "track", limit := 1 }] ∧
      (∀ resp t rest, searchCall = .ok resp → respOk resp.status = true →
        resp.items = t :: rest →
        (resolveTrackUri songName uri true searchCall).1 = .resolved t.uri) ∧
      (∀ resp, searchCall = .ok resp → respOk resp.status = true →
        resp.items = [] →
        (resolveTrackUri songName uri true searchCall).1 = .notFound q ∧
        resolveStatus (.notFound q) = some 404)) := by
  constructor
  · intro u hu hne
    subst hu
    have hturi : truthyStr (some u) = true := by simp [truthyStr, hne]
    cases songName with
    | none => simp [resolveTrackUri, truthyStr, hne]
    | some s =>
      by_cases hs : s = "" <;>
        simp [resolveTrackUri, truthyStr, hne, hs]
  · intro q hq hqne huri
    subst hq
    have h1 : truthyStr (some q) = true := by simp [truthyStr, hqne]
    refine ⟨?_, ?_, ?_⟩
    · cases searchCall with
      | error e => simp [resolveTrackUri, h1, huri]
      | ok resp =>
        by_cases hok : respOk resp.status
        · cases hitems : resp.items with
          | nil => simp [resolveTrackUri, h1, huri, hok, hitems]
          | cons t rest => simp [resolveTrackUri, h1, huri, hok, hitems]
        · simp [resolveTrackUri, h1, huri, hok]
    · intro resp t rest hsc hok hitems
      subst hsc
      simp [resolveTrackUri, h1, huri, hok, hitems]
    · intro resp hsc hok hitems
      subst hsc
      simp [resolveTrackUri, h1, huri, hok, hitems, resolveStatus]

/-- Concrete witness for `resolveTrackUri_deterministic`: a raw URI input
resolves verbatim with no search. -/
theorem resolveTrackUri_deterministic_witness :
    resolveTrackUri none (some "spotify:track:X") true (.error "unused") =
      (.resolved "spotify:track:X", []) :=
  (resolveTrackUri_deterministic none (some "spotify:track:X")
    (.error "unused")).1 "spotify:track:X" rfl (by decide)

/-- The `GET /me/player` body used by the ensure-playback step. -/
structure PlayerInfo where
  status : Nat
  is_playing : Bool
  contextUri : Option String
deriving Repr, DecidableEq

/-- Scripted Spotify-side outcomes for the append phase of one enqueue
request (after the track URI is resolved). -/
structure EnqueueEnv where
  playlistIdRes : Except String String
  playerCheck : Except String FetchResponse
  queueAddRes : Except String FetchResponse
  playlistAddRes : Except String FetchResponse
  ensurePlayer : Except String PlayerInfo
  playRes : Except String FetchResponse
deriving Repr

/-- Whether the `queueAdded` flag ends up true: the guarded try-block
(player check, then `POST /me/player/queue`) ran without throwing and the
queue add answered ok or 204; any exception inside is caught and leaves the
flag false. -/
def queueAppendSucceeded (env : EnqueueEnv) : Bool :=
  match env.playerCheck with
  | .error _ => false
  | .ok _ =>
    match env.queueAddRes with
    | .error _ => false
    | .ok r => respOk r.status || r.status == 204

/-- Whether the playlist append answered an ok status. -/
def playlistAppendSucceeded (env : EnqueueEnv) : Bool :=
  match env.playlistAddRes with
  | .ok r => respOk r.status
  | .error _ => false

/-- The append phase of the enqueue handler (revision with both appends):
resolve the radio playlist (failure → 500), best-effort add to the
immediate player queue, then add to the playlist at position 0 — a thrown
playlist call reaches the outer catch (500); a non-ok playlist response is
fatal only when the queue add also failed.  The trailing ensure-playback
step swallows all of its errors and never changes the response, so it is
response-irrelevant here.  Result: HTTP status and the `success` flag. -/
def enqueueAfterResolve (trackUri : String) (env : EnqueueEnv) : Nat × Bool :=
  match env.playlistIdRes with
  | .error _ => (500, false)
  | .ok _pid =>
    let queueAdded := queueAppendSucceeded env
    match env.playlistAddRes with
    | .error _ => (500, false)
    | .ok addRes =>
      if !respOk addRes.status && !queueAdded then (500, false)
      else (200, true)

/-- C5 counterexample: the immediate-queue append succeeds, but the
playlist append throws (a 401 whose refresh fails), and the whole operation
answers 500 — even though one of the two appends succeeded, contradicting
the claimed "success iff at least one append succeeded". -/
theorem enqueueAfterResolve_throw_counterexample :
    let env : EnqueueEnv :=
      { playlistIdRes := .ok "pl",
        playerCheck := .ok { status := 200 },
        queueAddRes := .ok { status := 204 },
        playlistAddRes := .error "Authentication failed: Token refresh unsuccessful",
        ensurePlayer := .ok { status := 200, is_playing := true, contextUri := none },
        playRes := .ok { status := 204 } }
    queueAppendSucceeded env = true ∧
    enqueueAfterResolve "spotify:track:X" env = (500, false) := by
  exact ⟨rfl, rfl⟩

/-- C5 (amended): once the playlist is resolved, the operation succeeds iff
the playlist append returned an HTTP response and at least one of the two
appends succeeded; in particular success always implies at least one append
succeeded, and when both appends fail the operation fails — but a *thrown*
playlist append (e.g. failed token refresh) yields a 500 even when the
immediate-queue append succeeded. -/
theorem enqueueAfterResolve_success_policy (trackUri pid : String)
    (env : EnqueueEnv) (hpid : env.playlistIdRes = .ok pid) :
    ((enqueueAfterResolve trackUri env).2 = true ↔
      (∃ addRes, env.playlistAddRes = .ok addRes) ∧
        (queueAppendSucceeded env || playlistAppendSucceeded env) = true) ∧
    ((enqueueAfterResolve trackUri env).2 = true →
      (queueAppendSucceeded env || playlistAppendSucceeded env) = true) ∧
    (queueAppendSucceeded env = false → playlistAppendSucceeded env = false →
      enqueueAfterResolve trackUri env = (500, false)) ∧
    ((enqueueAfterResolve trackUri env).2 = true ↔
      (enqueueAfterResolve trackUri env).1 = 200) := by
  have hmain : (enqueueAfterResolve trackUri env).2 = true ↔
      (∃ addRes, env.playlistAddRes = .ok addRes) ∧
        (queueAppendSucceeded env || playlistAppendSucceeded env) = true := by
    cases hadd : env.playlistAddRes with
    | error e =>
      simp only [enqueueAfterResolve, hpid, hadd]
      constructor
      · intro h; cases h
      · rintro ⟨⟨r, hr⟩, _⟩; cases hr
    | ok addRes =>
      by_cases hts : respOk addRes.status
      · have hps : playlistAppendSucceeded env = true := by
          simp [playlistAppendSucceeded, hadd, hts]
        simp [enqueueAfterResolve, hpid, hadd, hts, hps]
      · have hps : playlistAppendSucceeded env = false := by
          simp [playlistAppendSucceeded, hadd, hts]
        by_cases hqs : queueAppendSucceeded env = true
        · simp [enqueueAfterResolve, hpid, hadd, hts, hps, hqs]
        · simp only [Bool.not_eq_true] at hqs
          simp [enqueueAfterResolve, hpid, hadd, hts, hps, hqs]
  refine ⟨hmain, fun h => (hmain.mp h).2, ?_, ?_⟩
  · intro hq hp
    cases hadd : env.playlistAddRes with
    | error e => simp [enqueueAfterResolve, hpid, hadd]
    | ok addRes =>
      have hts : respOk addRes.status = false := by
        by_contra hcon
        simp only [Bool.not_eq_false] at hcon
        have : playlistAppendSucceeded env = true := by
          simp [playlistAppendSucceeded, hadd, hcon]
        rw [this] at hp; cases hp
      simp [enqueueAfterResolve, hpid, hadd, hts, hq]
  · cases hadd : env.playlistAddRes with
    | error e => simp [enqueueAfterResolve, hpid, hadd]
    | ok addRes =>
      by_cases hts : respOk addRes.status <;>
        by_cases hqs : queueAppendSucceeded env = true <;>
          simp only [Bool.not_eq_true] at * <;>
            simp [enqueueAfterResolve, hpid, hadd, hts, hqs]

/-- Concrete witness for `enqueueAfterResolve_success_policy`: queue append
fails, playlist append succeeds, operation succeeds with 200. -/
theorem enqueueAfterResolve_success_policy_witness :
    let env : EnqueueEnv :=
      { playlistIdRes := .ok "pl",
        playerCheck := .ok { status := 200 },
        queueAddRes := .ok { status := 404 },
        playlistAddRes := .ok { status := 201 },
        ensurePlayer := .ok { status := 200, is_playing := true, contextUri := none },
        playRes := .ok { status := 204 } }
    (enqueueAfterResolve "spotify:track:X" env).2 = true :=
  ((enqueueAfterResolve_success_policy "spotify:track:X" "pl"
    { playlistIdRes := .ok "pl",
      playerCheck := .ok { status := 200 },
      queueAddRes := .ok { status := 404 },
      playlistAddRes := .ok { status := 201 },
      ensurePlayer := .ok { status := 200, is_playing := true, contextUri := none },
      playRes := .ok { status := 204 } } rfl).1).mpr
    ⟨⟨{ status := 201 }, rfl⟩, by decide⟩

/-! ## DELETE /api/spotify/queue (part of the immediate-queue revision of
routes.ts, with compensating skip and verification)

String scanning (the `/\x2ftrack\x2f([a-zA-Z0-9]+)/` and
`/spotify:track:([a-zA-Z0-9]+)/` regexes, `includes`, `startsWith` and
first-occurrence `replace`) is modelled on character lists so that every
definition reduces in the kernel. -/

/-- Whether `s` starts with the pattern `p` (character-wise). -/
def listStartsWith : List Char → List Char → Bool
  | _, [] => true
  | [], _ :: _ => false
  | c :: cs, p :: ps => c == p && listStartsWith cs ps

/-- JS `s.startsWith(pre)`. -/
def jsStartsWith (s pre : String) : Bool :=
  listStartsWith s.data pre.data

/-- Whether the pattern `pat` occurs anywhere in the list. -/
def containsSub (pat : List Char) : List Char → Bool
  | [] => listStartsWith [] pat
  | c :: cs => listStartsWith (c :: cs) pat || containsSub pat cs

/-- JS `s.includes(pat)`. -/
def jsIncludes (s pat : String) : Bool :=
  containsSub pat.data s.data

/-- Model of `s.match(regex)` for a regex of shape `<marker>([a-zA-Z0-9]+)`: scan
left to right; at the first occurrence of the literal marker that is
followed by at least one alphanumeric character, capture that alphanumeric
run. -/
def extractAfterMarker (marker : List Char) : List Char → Option (List Char)
  | [] => none
  | c :: cs =>
    if listStartsWith (c :: cs) marker then
      let run := ((c :: cs).drop marker.length).takeWhile (fun ch => ch.isAlphanum)
      if run.isEmpty then extractAfterMarker marker cs
      else some run
    else extractAfterMarker marker cs

/-- String wrapper for `extractAfterMarker`. -/
def extractIdAfter (marker s : String) : Option String :=
  (extractAfterMarker marker.data s.data).map String.mk

/-- JS `s.replace(pat, "")` with a string pattern: removes the first
occurrence of `pat`, leaves everything else unchanged. -/
def replaceFirstList (pat : List Char) : List Char → List Char
  | [] => []
  | c :: cs =>
    if listStartsWith (c :: cs) pat && !pat.isEmpty then (c :: cs).drop pat.length
    else c :: replaceFirstList pat cs

/-- String wrapper for `replaceFirstList`. -/
def replaceFirst (s pat : String) : String :=
  String.mk (replaceFirstList pat.data s.data)

/-- The identifier normalization at the top of the remove handler:
`trackUri = uri`; when `uri` is falsy and `trackId` truthy use
`spotify:track:<trackId>`; when `uri` is truthy but not already a
`spotify:track:` URI, extract the id from a `.../track/<id>` URL when
possible (leaving the URI unchanged when the regex fails to match),
otherwise treat the whole value as a bare id. -/
def normalizeTrackUri (uri trackId : Option String) : Option String :=
  if !truthyStr uri then
    if truthyStr trackId then some ("spotify:track:" ++ trackId.getD "") else none
  else
    let u := uri.getD ""
    if jsStartsWith u "spotify:track:" then some u
    else if jsIncludes u "/track/" then
      match extractIdAfter "/track/" u with
      | some id => some ("spotify:track:" ++ id)
      | none => some u
    else some ("spotify:track:" ++ u)

/-- The `track` object of one playlist item (URI and bare id). -/
structure PTrack where
  uri : String
  id : String
deriving Repr, DecidableEq

/-- One `items[]` entry of a playlist-tracks page (the track may be null). -/
structure PItem where
  track : Option PTrack
deriving Repr, DecidableEq

/-- The `searchTrackId` computation inside `findTrackInPlaylist`: the given
`trackId` when truthy, otherwise the first `spotify:track:<alnum id>`
captured from `trackUri` (falsy when neither applies). -/
def computeSearchTrackId (trackUri : String) (trackId : Option String) : Option String :=
  if truthyStr trackId then trackId
  else if trackUri == "" then none
  else extractIdAfter "spotify:track:" trackUri

/-- One page of the playlist scan: first a URI match, then (when a search
id is available) an id match with the `spotify:track:` prefix stripped
from the search id. -/
def findOnPage (items : List PItem) (trackUri : String) (trackId : Option String) :
    Option String :=
  match items.find? (fun it =>
      match it.track with
      | some t => t.uri == trackUri
      | none => false) with
  | some it =>
    match it.track with
    | some t => some t.uri
    | none => none
  | none =>
    match computeSearchTrackId trackUri trackId with
    | none => none
    | some searchTrackId =>
      let idOnly := replaceFirst searchTrackId "spotify:track:"
      match items.find? (fun it =>
          match it.track with
          | some t => t.id == idOnly
          | none => false) with
      | some it =>
        match it.track with
        | some t => some t.uri
        | none => none
      | none => none

/-- One 100-item page of the playlist, starting at `off`. -/
def pageAt (pl : List PItem) (off : Nat) : List PItem :=
  (pl.drop off).take 100

/-- The paginated scan over the offsets `0, 100, ..., 400`: scan each page,
stop early when a page is shorter than the page size. -/
def findTrackPages (pl : List PItem) (trackUri : String) (trackId : Option String) :
    List Nat → Option String
  | [] => none
  | off :: rest =>
    let items := pageAt pl off
    match findOnPage items trackUri trackId with
    | some u => some u
    | none =>
      if items.length < 100 then none
      else findTrackPages pl trackUri trackId rest

/-- Function `findTrackInPlaylist()`: bounded (500-track) paginated search of the
managed playlist for the normalized URI or the bare track id; a failing
page fetch (`scanOk = false`) makes the scan report "not found". -/
def findTrackInPlaylist (scanOk : Bool) (pl : List PItem) (trackUri : String)
    (trackId : Option String) : Option String :=
  if scanOk then findTrackPages pl trackUri trackId [0, 100, 200, 300, 400]
  else none

/-- The mutating Spotify actions a remove request can issue: the playlist
`DELETE` of a resolved URI and the `POST /me/player/next` skip. -/
inductive RemoveAction where
  | deleteTrack (uri : String)
  | skipNext
deriving Repr, DecidableEq

/-- The player state as reported by `GET /me/player/queue`: whether the
fetch answered ok, the currently-playing URI and the immediate queue's URIs
in order (`queue[0]` being the next item). -/
structure QueueSnapshot where
  ok : Bool
  nowPlaying : Option String
  queue : List String
deriving Repr, DecidableEq

/-- Scripted Spotify-side state for one remove request: whether the radio
playlist resolves, the playlist contents seen by each of the (up to three)
scans together with whether their page fetches succeed, the outcome of the
playlist `DELETE`, and the (stable) player snapshot used by every queue
check. -/
structure RemoveEnv where
  playlistIdOk : Bool
  scan1Ok : Bool
  playlist1 : List PItem
  deleteOk : Bool
  qsnap : QueueSnapshot
  scan2Ok : Bool
  playlist2 : List PItem
  scan3Ok : Bool
  playlist3 : List PItem
deriving Repr

/-- The HTTP outcome of a remove request together with the mutating
Spotify actions it issued, in order. -/
structure RemoveResult where
  status : Nat
  success : Bool
  actions : List RemoveAction
deriving Repr, DecidableEq

/-- The core of the remove handler, after the guards and identifier
normalization: resolve the playlist (failure → 500); scan it for the
target.  Not found: skip (and succeed) exactly when the target URI is
currently playing or next in the immediate queue, otherwise 404.  Found:
issue the playlist DELETE (a non-ok response → 500), skip when the removed
URI is current/next, then re-scan to verify the removal; when the track is
still present, retry the skip-if-current/next once (comparing against the
normalized input URI) and fail with 500 unless a final scan shows it gone. -/
def removeCore (trackUri : String) (trackId : Option String) (env : RemoveEnv) :
    RemoveResult :=
  if !env.playlistIdOk then { status := 500, success := false, actions := [] }
  else
    match findTrackInPlaylist env.scan1Ok env.playlist1 trackUri trackId with
    | none =>
      if env.qsnap.ok then
        if env.qsnap.nowPlaying == some trackUri ||
           env.qsnap.queue.head? == some trackUri then
          { status := 200, success := true, actions := [.skipNext] }
        else { status := 404, success := false, actions := [] }
      else { status := 404, success := false, actions := [] }
    | some uriToRemove =>
      if !env.deleteOk then
        { status := 500, success := false, actions := [.deleteTrack uriToRemove] }
      else
        let acts1 :=
          if env.qsnap.ok &&
             (env.qsnap.nowPlaying == some uriToRemove ||
              env.qsnap.queue.head? == some uriToRemove)
          then [RemoveAction.deleteTrack uriToRemove, RemoveAction.skipNext]
          else [RemoveAction.deleteTrack uriToRemove]
        match findTrackInPlaylist env.scan2Ok env.playlist2 trackUri trackId with
        | none => { status := 200, success := true, actions := acts1 }
        | some _ =>
          if env.qsnap.ok then
            if env.qsnap.nowPlaying == some trackUri ||
               env.qsnap.queue.head? == some trackUri then
              match findTrackInPlaylist env.scan3Ok env.playlist3 trackUri trackId with
              | some _ =>
                { status := 500, success := false, actions := acts1 ++ [.skipNext] }
              | none =>
                { status := 200, success := true, actions := acts1 ++ [.skipNext] }
            else { status := 500, success := false, actions := acts1 }
          else { status := 500, success := false, actions := acts1 }

/-- The `DELETE /api/spotify/queue` handler: 400 when neither `uri` nor
`trackId` is given, 500 when no admin password is configured, 401 when the
`password` header does not match, then identifier normalization followed by
`removeCore`. -/
def removeHandler (adminPassword passwordHeader uri trackId : Option String)
    (env : RemoveEnv) : RemoveResult :=
  if !truthyStr uri && !truthyStr trackId then
    { status := 400, success := false, actions := [] }
  else if !truthyStr adminPassword then
    { status := 500, success := false, actions := [] }
  else if !(passwordHeader == adminPassword) then
    { status := 401, success := false, actions := [] }
  else removeCore ((normalizeTrackUri uri trackId).getD "") trackId env

/-- Real playlist data: every non-null track's URI is `spotify:track:`
followed by its id. -/
def wellFormedPlaylist (pl : List PItem) : Bool :=
  pl.all (fun it =>
    match it.track with
    | some t => t.uri == "spotify:track:" ++ t.id
    | none => true)

/-- Pages of a well-formed playlist are well-formed. -/
theorem wellFormedPlaylist_pageAt (pl : List PItem) (off : Nat)
    (h : wellFormedPlaylist pl = true) :
    wellFormedPlaylist (pageAt pl off) = true := by
  rw [wellFormedPlaylist, List.all_eq_true] at *
  intro it hit
  exact h it (List.drop_subset _ _ (List.take_subset _ _ hit))

/-- On a well-formed page, whatever URI the page scan resolves (by URI or
by id) is the normalized target URI itself. -/
theorem findOnPage_eq_target (items : List PItem) (tU tid : String)
    (trackId : Option String) (u : String)
    (hwf : wellFormedPlaylist items = true)
    (hTid : computeSearchTrackId tU trackId = some tid)
    (hCanon : tU = "spotify:track:" ++ tid)
    (hRepl : replaceFirst tid "spotify:track:" = tid)
    (hfind : findOnPage items tU trackId = some u) : u = tU := by
  unfold findOnPage at hfind
  cases hby : items.find? (fun it =>
      match it.track with
      | some t => t.uri == tU
      | none => false) with
  | some it =>
    rw [hby] at hfind
    have hp := List.find?_some hby
    obtain ⟨tr⟩ := it
    cases tr with
    | none => cases hp
    | some t =>
      have huri : t.uri = tU := by simpa using hp
      have : some t.uri = some u := hfind
      cases this
      exact huri
  | none =>
    rw [hby, hTid] at hfind
    simp only [hRepl] at hfind
    cases hby2 : items.find? (fun it =>
        match it.track with
        | some t => t.id == tid
        | none => false) with
    | none => rw [hby2] at hfind; cases hfind
    | some it =>
      rw [hby2] at hfind
      have hp := List.find?_some hby2
      have hmem := List.mem_of_find?_eq_some hby2
      obtain ⟨tr⟩ := it
      cases tr with
      | none => cases hp
      | some t =>
        have hid : t.id = tid := by simpa using hp
        have hwft := List.all_eq_true.mp hwf _ hmem
        have huri : t.uri = "spotify:track:" ++ t.id := by simpa using hwft
        have : some t.uri = some u := hfind
        cases this
        rw [huri, hid, ← hCanon]

/-- The bounded paginated scan also only ever resolves the target URI on a
well-formed playlist. -/
theorem findTrackPages_eq_target (pl : List PItem) (tU tid : String)
    (trackId : Option String) (u : String) (offs : List Nat)
    (hwf : wellFormedPlaylist pl = true)
    (hTid : computeSearchTrackId tU trackId = some tid)
    (hCanon : tU = "spotify:track:" ++ tid)
    (hRepl : replaceFirst tid "spotify:track:" = tid)
    (hfind : findTrackPages pl tU trackId offs = some u) : u = tU := by
  induction offs with
  | nil => cases hfind
  | cons off rest ih =>
    rw [findTrackPages] at hfind
    cases hpage : findOnPage (pageAt pl off) tU trackId with
    | some v =>
      rw [hpage] at hfind
      have : some v = some u := hfind
      cases this
      exact findOnPage_eq_target (pageAt pl off) tU tid trackId u
        (wellFormedPlaylist_pageAt pl off hwf) hTid hCanon hRepl hpage
    | none =>
      rw [hpage] at hfind
      by_cases hlen : (pageAt pl off).length < 100
      · rw [if_pos hlen] at hfind; cases hfind
      · rw [if_neg hlen] at hfind; exact ih hfind

/-- Function `findTrackInPlaylist` only ever resolves the target URI on a
well-formed playlist. -/
theorem findTrackInPlaylist_eq_target (scanOk : Bool) (pl : List PItem)
    (tU tid : String) (trackId : Option String) (u : String)
    (hwf : wellFormedPlaylist pl = true)
    (hTid : computeSearchTrackId tU trackId = some tid)
    (hCanon : tU = "spotify:track:" ++ tid)
    (hRepl : replaceFirst tid "spotify:track:" = tid)
    (hfind : findTrackInPlaylist scanOk pl tU trackId = some u) : u = tU := by
  unfold findTrackInPlaylist at hfind
  by_cases hs : scanOk = true
  · rw [if_pos hs] at hfind
    exact findTrackPages_eq_target pl tU tid trackId u _ hwf hTid hCanon hRepl hfind
  · rw [if_neg hs] at hfind; cases hfind

/-- An admin-authorized, well-formed remove request reduces to its core. -/
theorem removeHandler_authorized
    (adminPassword passwordHeader uri trackId : Option String) (env : RemoveEnv)
    (hIn : (truthyStr uri || truthyStr trackId) = true)
    (hPw : truthyStr adminPassword = true)
    (hAuth : passwordHeader = adminPassword) :
    removeHandler adminPassword passwordHeader uri trackId env =
      removeCore ((normalizeTrackUri uri trackId).getD "") trackId env := by
  have h1 : (!truthyStr uri && !truthyStr trackId) = false := by
    cases h : truthyStr uri <;> cases h2 : truthyStr trackId <;> simp_all
  subst hAuth
  simp [removeHandler, h1, hPw]

/-- In the found-in-playlist case, `removeCore` always issues the playlist
delete of the resolved URI, and issues a skip only when that URI is
currently playing or next in the immediate queue. -/
theorem removeCore_found (tU : String) (trackId : Option String) (env : RemoveEnv)
    (hPid : env.playlistIdOk = true)
    (hfind : findTrackInPlaylist env.scan1Ok env.playlist1 tU trackId = some tU) :
    RemoveAction.deleteTrack tU ∈ (removeCore tU trackId env).actions ∧
    (RemoveAction.skipNext ∈ (removeCore tU trackId env).actions →
      env.qsnap.nowPlaying = some tU ∨ env.qsnap.queue.head? = some tU) := by
  unfold removeCore
  rw [hPid, hfind]
  simp only [Bool.not_true, Bool.false_eq_true, if_false]
  by_cases hdel : env.deleteOk = true
  · simp only [hdel, Bool.not_true, Bool.false_eq_true, if_false]
    by_cases hc1 : (env.qsnap.ok &&
        (env.qsnap.nowPlaying == some tU || env.qsnap.queue.head? == some tU)) = true
    · have hdisj : env.qsnap.nowPlaying = some tU ∨ env.qsnap.queue.head? = some tU := by
        have h2 := hc1
        rw [Bool.and_eq_true] at h2
        simpa [Bool.or_eq_true, beq_iff_eq] using h2.2
      rw [if_pos hc1]
      cases hs2 : findTrackInPlaylist env.scan2Ok env.playlist2 tU trackId with
      | none =>
        simp only [hs2]
        exact ⟨by simp, fun _ => hdisj⟩
      | some w =>
        simp only [hs2]
        by_cases hok : env.qsnap.ok = true
        · rw [if_pos hok]
          by_cases hc2 : (env.qsnap.nowPlaying == some tU ||
              env.qsnap.queue.head? == some tU) = true
          · rw [if_pos hc2]
            cases hs3 : findTrackInPlaylist env.scan3Ok env.playlist3 tU trackId with
            | some w3 =>
              simp only [hs3]
              exact ⟨by simp, fun _ => hdisj⟩
            | none =>
              simp only [hs3]
              exact ⟨by simp, fun _ => hdisj⟩
          · rw [if_neg hc2]
            exact ⟨by simp, fun _ => hdisj⟩
        · rw [if_neg hok]
          exact ⟨by simp, fun _ => hdisj⟩
    · rw [if_neg hc1]
      cases hs2 : findTrackInPlaylist env.scan2Ok env.playlist2 tU trackId with
      | none =>
        simp only [hs2]
        exact ⟨by simp, by simp⟩
      | some w =>
        simp only [hs2]
        by_cases hok : env.qsnap.ok = true
        · rw [if_pos hok]
          by_cases hc2 : (env.qsnap.nowPlaying == some tU ||
              env.qsnap.queue.head? == some tU) = true
          · have hdisj : env.qsnap.nowPlaying = some tU ∨
                env.qsnap.queue.head? = some tU := by
              simpa [Bool.or_eq_true, beq_iff_eq] using hc2
            rw [if_pos hc2]
            cases hs3 : findTrackInPlaylist env.scan3Ok env.playlist3 tU trackId with
            | some w3 =>
              simp only [hs3]
              exact ⟨by simp, fun _ => hdisj⟩
            | none =>
              simp only [hs3]
              exact ⟨by simp, fun _ => hdisj⟩
          · rw [if_neg hc2]
            exact ⟨by simp, by simp⟩
        · rw [if_neg hok]
          exact ⟨by simp, by simp⟩
  · simp only [Bool.not_eq_true] at hdel
    simp [hdel]

/-- C1: for an admin-authorized remove request over a canonical track
identifier and a well-formed playlist — when the scan finds the resolved
track URI in the managed playlist, a playlist delete of that URI is issued
and a skip is issued only when that URI is the currently-playing or
immediate-next item; when it is not found and the URI is currently playing
or next in the immediate queue, the handler skips it and reports success
with no playlist delete; otherwise it answers 404 with no Spotify mutation
at all. -/
theorem removeQueue_case_analysis
    (adminPassword passwordHeader uri trackId : Option String) (env : RemoveEnv)
    (tU tid : String)
    (hIn : (truthyStr uri || truthyStr trackId) = true)
    (hPw : truthyStr adminPassword = true)
    (hAuth : passwordHeader = adminPassword)
    (hPid : env.playlistIdOk = true)
    (hNorm : normalizeTrackUri uri trackId = some tU)
    (hTid : computeSearchTrackId tU trackId = some tid)
    (hCanon : tU = "spotify:track:" ++ tid)
    (hRepl : replaceFirst tid "spotify:track:" = tid)
    (hWF1 : wellFormedPlaylist env.playlist1 = true) :
    (findTrackInPlaylist env.scan1Ok env.playlist1 tU trackId ≠ none →
      RemoveAction.deleteTrack tU ∈
        (removeHandler adminPassword passwordHeader uri trackId env).actions ∧
      (RemoveAction.skipNext ∈
          (removeHandler adminPassword passwordHeader uri trackId env).actions →
        env.qsnap.nowPlaying = some tU ∨ env.qsnap.queue.head? = some tU)) ∧
    (findTrackInPlaylist env.scan1Ok env.playlist1 tU trackId = none →
      env.qsnap.ok = true →
      (env.qsnap.nowPlaying = some tU ∨ env.qsnap.queue.head? = some tU) →
      removeHandler adminPassword passwordHeader uri trackId env =
        { status := 200, success := true, actions := [.skipNext] }) ∧
    (findTrackInPlaylist env.scan1Ok env.playlist1 tU trackId = none →
      env.qsnap.nowPlaying ≠ some tU → env.qsnap.queue.head? ≠ some tU →
      removeHandler adminPassword passwordHeader uri trackId env =
        { status := 404, success := false, actions := [] }) := by
  have hred := removeHandler_authorized adminPassword passwordHeader uri trackId env
    hIn hPw hAuth
  rw [hNorm] at hred
  simp only [Option.getD_some] at hred
  rw [hred]
  refine ⟨?_, ?_, ?_⟩
  · intro hne
    obtain ⟨u, hu⟩ := Option.ne_none_iff_exists'.mp hne
    have hut : u = tU := findTrackInPlaylist_eq_target env.scan1Ok env.playlist1
      tU tid trackId u hWF1 hTid hCanon hRepl hu
    subst hut
    exact removeCore_found u trackId env hPid hu
  · intro hnone hok hdisj
    have hcond : (env.qsnap.nowPlaying == some tU ||
        env.qsnap.queue.head? == some tU) = true := by
      rcases hdisj with h | h <;> simp [h]
    unfold removeCore
    rw [hPid]
    simp [hnone, hok, hcond]
  · intro hnone hnow hnext
    have hcond : (env.qsnap.nowPlaying == some tU ||
        env.qsnap.queue.head? == some tU) = false := by
      simp only [Bool.or_eq_false_iff]
      constructor
      · exact beq_eq_false_iff_ne.mpr hnow
      · exact beq_eq_false_iff_ne.mpr hnext
    unfold removeCore
    rw [hPid]
    by_cases hok : env.qsnap.ok = true
    · simp [hnone, hok, hcond]
    · simp only [Bool.not_eq_true] at hok
      simp [hnone, hok]

/-- Concrete witness for `removeQueue_case_analysis`: an authorized remove
of a track that sits in the playlist and is currently playing. -/
theorem removeQueue_case_analysis_witness :
    let env : RemoveEnv :=
      { playlistIdOk := true, scan1Ok := true,
        playlist1 := [{ track := some { uri := "spotify:track:abc", id := "abc" } }],
        deleteOk := true,
        qsnap := { ok := true, nowPlaying := some "spotify:track:abc", queue := [] },
        scan2Ok := true, playlist2 := [], scan3Ok := true, playlist3 := [] }
    RemoveAction.deleteTrack "spotify:track:abc" ∈
      (removeHandler (some "pw") (some "pw") (some "spotify:track:abc") none
        env).actions :=
  ((removeQueue_case_analysis (some "pw") (some "pw") (some "spotify:track:abc") none
    { playlistIdOk := true, scan1Ok := true,
      playlist1 := [{ track := some { uri := "spotify:track:abc", id := "abc" } }],
      deleteOk := true,
      qsnap := { ok := true, nowPlaying := some "spotify:track:abc", queue := [] },
      scan2Ok := true, playlist2 := [], scan3Ok := true, playlist3 := [] }
    "spotify:track:abc" "abc"
    (by decide) (by decide) rfl rfl (by decide) (by decide) (by decide) (by decide)
    (by decide)).1 (by decide)).1
